import Mathlib

/-!
Verification development for the BROWSEEASE frontend transport / session-state
layer. The definitions below are a shallow embedding of:

* `src/frontend/src/hooks/use-websocket.ts` — the `useWebSocket` hook
  (connection, reconnection and send logic) and the `SearchResults` component
  (the effects that fold `logs`, `progress`, `results` / `partialResults`
  into the displayed UI state);
* `src/unnamed/part_000` — the `useApi` hook's generic `request` helper.

Wall-clock values (`Date.now()`, `Math.random()`, timestamps, React keys) do
not affect any verified property; generated element ids are modelled by a
deterministic fresh counter, and timestamps are omitted.
-/

namespace BrowseEase

/-! ## WebSocket readyState constants (browser API) -/

def wsCONNECTING : Nat := 0
def wsOPEN : Nat := 1
def wsCLOSING : Nat := 2
def wsCLOSED : Nat := 3

/-! ## `useWebSocket` hook state

`WS` models one `WebSocket` object (only its `readyState` matters here).
`HookState` models the mutable state of one `useWebSocket` instance:
`ws` is `webSocketRef.current`, `readyState` the React state mirror,
`attempts` is `reconnectAttemptsRef.current`, `timerPending` records whether
`reconnectTimeoutRef.current` holds a live timer.  `reconnects` counts
executed reconnect attempts (timer firings) and `created` counts constructed
`WebSocket` objects; both are observers used only in the theorems. -/

structure WS where
  readyState : Nat
deriving DecidableEq, Repr

structure HookState where
  ws : Option WS
  readyState : Nat
  attempts : Nat
  timerPending : Bool
  reconnects : Nat
  created : Nat
deriving DecidableEq, Repr

/-- Configuration of `useWebSocket` (the `WebSocketOptions` fields that drive
reconnection). -/
structure Cfg where
  autoReconnect : Bool
  reconnectInterval : Nat
  maxReconnectAttempts : Nat
deriving DecidableEq, Repr

/-- Initial hook state: no socket yet, `readyState` initialised to
`WebSocket.CONNECTING`, zero attempts, no pending timer. -/
def initialHookState : HookState :=
  { ws := none, readyState := wsCONNECTING, attempts := 0,
    timerPending := false, reconnects := 0, created := 0 }

/-- `connect` (use-websocket.ts lines 50–56): if the current socket's
`readyState` is `OPEN`, return without doing anything; otherwise construct a
new `WebSocket` (which starts in `CONNECTING`) and set the React `readyState`
to `CONNECTING`. -/
def connect (st : HookState) : HookState :=
  if (st.ws.map (·.readyState)) = some wsOPEN then st
  else
    { st with ws := some { readyState := wsCONNECTING },
              readyState := wsCONNECTING,
              created := st.created + 1 }

/-- The `onclose` handler (use-websocket.ts lines 68–78): the browser has
moved the socket to `CLOSED`; the handler mirrors that into React state and,
when `autoReconnect` holds and `attempts < maxReconnectAttempts`, schedules a
reconnect timer. -/
def oncloseHandler (cfg : Cfg) (st : HookState) : HookState :=
  let st1 := { st with readyState := wsCLOSED,
                       ws := st.ws.map (fun w => { w with readyState := wsCLOSED }) }
  if cfg.autoReconnect ∧ st1.attempts < cfg.maxReconnectAttempts then
    { st1 with timerPending := true }
  else st1

/-- The reconnect timer firing (use-websocket.ts lines 73–76): the timeout
callback increments the attempt counter and calls `connect`. -/
def timerFire (st : HookState) : HookState :=
  connect { st with timerPending := false,
                    attempts := st.attempts + 1,
                    reconnects := st.reconnects + 1 }

/-- Outcome of `sendMessage`: the payload is either sent on the socket or the
call falls through the `readyState` guard and does nothing. -/
inductive SendOutcome where
  | sentData (d : String)
  | droppedSilently
deriving DecidableEq, Repr

/-- `sendMessage` (use-websocket.ts lines 85–92): send only when the current
socket's `readyState` is `OPEN`; otherwise the body is skipped entirely. -/
def sendMessage (st : HookState) (d : String) : SendOutcome :=
  match st.ws with
  | some w => if w.readyState = wsOPEN then .sentData d else .droppedSilently
  | none => .droppedSilently

/-- `getConnectionStatus` (use-websocket.ts lines 35–48). -/
def getConnectionStatus (st : HookState) : String :=
  if st.readyState = wsCONNECTING then "connecting"
  else if st.readyState = wsOPEN then "open"
  else if st.readyState = wsCLOSING then "closing"
  else if st.readyState = wsCLOSED then "closed"
  else "closed"

/-- The mount-effect cleanup (use-websocket.ts lines 97–105): clear any
pending reconnect timer, then `close()` the socket.  Closing a socket that is
not already `CLOSED` makes the browser fire the still-attached `onclose`
handler. -/
def cleanup (cfg : Cfg) (st : HookState) : HookState :=
  let st1 := { st with timerPending := false }
  match st1.ws with
  | some w => if w.readyState ≠ wsCLOSED then oncloseHandler cfg st1 else st1
  | none => st1

/-- One run of the "every connection closes immediately" scenario: each
iteration the newly created socket closes (firing `oncloseHandler`); if a
reconnect timer was scheduled it fires (`timerFire`, which reconnects) and
the loop continues, otherwise the run ends. `fuel` bounds the iterations. -/
def immediateCloseRun (cfg : Cfg) : Nat → HookState → HookState
  | 0, st => st
  | fuel + 1, st =>
      let st1 := oncloseHandler cfg st
      if st1.timerPending then immediateCloseRun cfg fuel (timerFire st1)
      else st1

/-! ## `useApi` generic `request` helper (src/unnamed/part_000 lines 24–69)

The outcome of the `fetch` environment is made explicit: the network either
fails (rejecting the promise, caught by the `catch`) or yields a response
with an `ok` flag, a status, a content type, and a body.  A JSON body that
fails to parse (`response.json()` throwing) is `jsonBody = none`; the throw
is caught by the same `catch`. -/

inductive FetchOutcome where
  | networkFailure (message : String)
  | response (ok : Bool) (status : Nat) (statusText : String)
      (isJson : Bool) (jsonBody : Option String) (textBody : String)
deriving DecidableEq, Repr

structure ApiResponse where
  data : Option String
  error : Option String
  loading : Bool
deriving DecidableEq, Repr

/-- URL resolution at the top of `request`. -/
def buildUrl (baseUrl endpoint : String) : String :=
  if endpoint.startsWith "http" then endpoint else baseUrl ++ endpoint

/-- `request` (src/unnamed/part_000 lines 24–69): on a non-ok response the
code throws `API error: <status> <statusText>` inside the `try`, so the
`catch` returns `{data: null, error, loading: false}`; a network failure or a
JSON parse failure takes the same `catch`; on success the parsed JSON body
(or the raw text body for non-JSON content) is returned with a null error. -/
def request (outcome : FetchOutcome) : ApiResponse :=
  match outcome with
  | .networkFailure msg => { data := none, error := some msg, loading := false }
  | .response ok status statusText isJson jsonBody textBody =>
      if ok = false then
        { data := none,
          error := some ("API error: " ++ toString status ++ " " ++ statusText),
          loading := false }
      else if isJson then
        match jsonBody with
        | some j => { data := some j, error := none, loading := false }
        | none => { data := none, error := some "JSON parse failure", loading := false }
      else { data := some textBody, error := none, loading := false }

/-! ## `SearchResults` component state (use-websocket.ts, second document)

`UIState` holds the component state the claims are about: `streamMessages`
and `progressValue`.  Stream-message ids and timestamps are wall-clock React
keys and are omitted. -/

inductive MsgType where
  | info
  | success
  | warning
  | error
  | progress
deriving DecidableEq, Repr

structure StreamMessage where
  type : MsgType
  message : String
deriving DecidableEq, Repr

structure UIState where
  streamMessages : List StreamMessage
  progressValue : Nat
deriving DecidableEq, Repr

/-- Does `pat` occur at the head of `cs`? -/
def startsWithChars : List Char → List Char → Bool
  | _, [] => true
  | [], _ :: _ => false
  | c :: cs, p :: ps => c == p && startsWithChars cs ps

/-- Does `pat` occur anywhere in `cs`? -/
def occursIn (pat : List Char) : List Char → Bool
  | [] => pat.isEmpty
  | c :: cs => startsWithChars (c :: cs) pat || occursIn pat cs

/-- Substring test used by the log classifier (`log.includes(pat)`). -/
def containsSubstr (s pat : String) : Bool :=
  occursIn pat.toList s.toList

/-- Severity classification of a log line (SearchResults lines 170–177):
`log.includes('Error') ? 'error' : log.includes('completed') ? 'success' :
log.includes('Progress') ? 'progress' : 'info'`. -/
def logType (log : String) : MsgType :=
  if containsSubstr log "Error" then .error
  else if containsSubstr log "completed" then .success
  else if containsSubstr log "Progress" then .progress
  else .info

/-- The logs effect (SearchResults lines 166–185): return early when `logs`
is empty; otherwise build a message per log line, drop those whose text
already appears among the previously recorded messages, and append the
remainder in order. -/
def applyLogs (st : UIState) (logs : List String) : UIState :=
  if logs.length = 0 then st
  else
    let newMessages := logs.map (fun log =>
      ({ type := logType log, message := log } : StreamMessage))
    let existingMessages := st.streamMessages.map (·.message)
    let uniqueNewMessages := newMessages.filter
      (fun m => !(existingMessages.contains m.message))
    { st with streamMessages := st.streamMessages ++ uniqueNewMessages }

/-- One progress update delivered by the hook (`progress` is the numeric
percent, absent/zero both render as 0 through `|| 0`; an empty `message`
models a falsy message). -/
structure ProgressUpdate where
  progress : Option Nat
  message : String
  status : String
deriving DecidableEq, Repr

/-- The progress effect (SearchResults lines 187–211), for a non-null
`progress` object: always overwrite `progressValue` with
`progress.progress || 0`; then, when the message is truthy and the status is
not `'error'`, append a derived stream message (tagged by status) unless an
entry with the same text already exists. -/
def applyProgressUpdate (st : UIState) (p : ProgressUpdate) : UIState :=
  let st1 := { st with progressValue := p.progress.getD 0 }
  if p.message ≠ "" ∧ p.status ≠ "error" then
    let messageType : MsgType :=
      if p.status = "completed" then .success
      else if p.status = "cancelled" then .warning
      else .progress
    if st1.streamMessages.any (fun m => m.message == p.message) then st1
    else { st1 with streamMessages :=
            st1.streamMessages ++ [{ type := messageType, message := p.message }] }
  else st1

/-! ## Displayed products (SearchResults lines 213–228) -/

structure Product where
  id : Option String
  recommended : Option Bool
  name : String
deriving DecidableEq, Repr

structure DisplayedProduct where
  id : String
  recommended : Option Bool
  name : String
  isTopPick : Bool
deriving DecidableEq, Repr

/-- The results object handed over by the hook (`results.products`). -/
structure ResultsObj where
  products : Option (List Product)
deriving DecidableEq, Repr

/-- Decoration applied to each product before display: keep the fields,
default the id (`product.id || fresh key`) and derive `isTopPick` from
`product.recommended || false`.  `fresh` stands for the wall-clock part of
the generated key. -/
def decorateList (fresh : Nat) (ps : List Product) : List DisplayedProduct :=
  ps.enum.map (fun ip =>
    { id := ip.2.id.getD ("product-" ++ toString fresh ++ "-" ++ toString ip.1),
      recommended := ip.2.recommended,
      name := ip.2.name,
      isTopPick := ip.2.recommended.getD false })

/-- The displayed-products effect (SearchResults lines 213–228):
`if (results && results.products)` display the final products, `else if`
there are partial results display those, else keep the previous display. -/
def updateDisplayed (fresh : Nat) (results : Option ResultsObj)
    (partialResults : List Product) (prev : List DisplayedProduct) :
    List DisplayedProduct :=
  match results with
  | some r =>
      match r.products with
      | some ps => decorateList fresh ps
      | none =>
          if partialResults.length > 0 then decorateList fresh partialResults
          else prev
  | none =>
      if partialResults.length > 0 then decorateList fresh partialResults
      else prev

/-! ## Final/partial result bookkeeping of the streaming hook

Modelled from the spec: the `useSSESearch` hook that owns `results` and
`partialResults` is not under `src/` (only its consumer `SearchResults` is).
Per the spec (§4.4), `FinalResultEvent` sets the final result set exactly
once, and `PartialResultEvent` replaces the partial snapshot wholesale and is
ignored once a final result has been recorded. -/

structure SSEState where
  results : Option ResultsObj
  partialResults : List Product
deriving DecidableEq, Repr

/-- Modelled from the spec: fold of a `PartialResultEvent` — replace the
snapshot wholesale, ignored once a final result exists. -/
def applyPartialEvent (st : SSEState) (items : List Product) : SSEState :=
  if st.results.isSome then st else { st with partialResults := items }

/-- Modelled from the spec: fold of a `FinalResultEvent` — set the final
result set at most once. -/
def applyFinalEvent (st : SSEState) (items : ResultsObj) : SSEState :=
  if st.results.isSome then st else { st with results := some items }

end BrowseEase

namespace BrowseEase

/-! ## Theorems -/

/-- C1 (counterexample): folding a progress event with percent 50 and then a
stale event with percent 30 leaves the published progress at 30, which is
lower than the previously published 50 — the stored progress is not
max(previous, incoming) and does regress. -/
theorem progress_regresses_on_stale_frame :
    (applyProgressUpdate (⟨[], 0⟩ : UIState) ⟨some 50, "", "running"⟩).progressValue = 50 ∧
    (applyProgressUpdate (applyProgressUpdate (⟨[], 0⟩ : UIState) ⟨some 50, "", "running"⟩)
        ⟨some 30, "", "running"⟩).progressValue = 30 ∧
    30 < 50 := by
  decide

/-- C1 (amended): after each progress event the published progress equals the
incoming percent (0 when absent), regardless of the previous value; the code
overwrites rather than taking a maximum, so a stale lower percent lowers the
displayed value. -/
theorem progress_tracks_latest_event (st : UIState) (p : ProgressUpdate) :
    (applyProgressUpdate st p).progressValue = p.progress.getD 0 := by
  unfold applyProgressUpdate
  dsimp only
  split
  · split <;> rfl
  · rfl

/-- C4 (code bug): tearing down the hook while the socket is open and no
reconnect attempt has been consumed clears the pending timer but then closes
the socket, whose still-attached onclose handler schedules a fresh reconnect
timer; when that timer fires it constructs a new WebSocket into the dead
session. -/
theorem cleanup_reschedules_reconnect :
    (cleanup ⟨true, 5000, 5⟩ ⟨some ⟨wsOPEN⟩, wsOPEN, 0, false, 0, 1⟩).timerPending = true ∧
    (timerFire (cleanup ⟨true, 5000, 5⟩ ⟨some ⟨wsOPEN⟩, wsOPEN, 0, false, 0, 1⟩)).created = 2 := by
  decide

/-- C5: once a final result set exists, the displayed products are computed
from it alone (any partial snapshot and any previous display are ignored);
before a final result exists a non-empty partial snapshot replaces the
display wholesale; and, per the spec-modelled stream fold, a partial-result
event is ignored once a final result has been recorded while the final
result set is set at most once. -/
theorem final_results_take_precedence :
    (∀ (fresh : Nat) (ps partials : List Product) (prev : List DisplayedProduct),
       updateDisplayed fresh (some ⟨some ps⟩) partials prev = decorateList fresh ps) ∧
    (∀ (fresh : Nat) (p : Product) (rest : List Product) (prev : List DisplayedProduct),
       updateDisplayed fresh none (p :: rest) prev = decorateList fresh (p :: rest)) ∧
    (∀ (r : ResultsObj) (partials items : List Product),
       applyPartialEvent ⟨some r, partials⟩ items = ⟨some r, partials⟩) ∧
    (∀ (r items : ResultsObj) (partials : List Product),
       (applyFinalEvent ⟨some r, partials⟩ items).results = some r) ∧
    (∀ (partials : List Product) (items : ResultsObj),
       (applyFinalEvent ⟨none, partials⟩ items).results = some items) := by
  refine ⟨?_, ?_, ?_, ?_, ?_⟩
  · intro fresh ps partials prev
    rfl
  · intro fresh p rest prev
    simp [updateDisplayed]
  · intro r partials items
    rfl
  · intro r items partials
    rfl
  · intro partials items
    rfl

/-- C6 (counterexample): sending on a closed connection neither raises an
error nor sends — the call falls through the readyState guard and silently
does nothing (the code has no throwing path at all). -/
theorem send_on_closed_is_silent :
    sendMessage ⟨some ⟨wsCLOSED⟩, wsCLOSED, 0, false, 0, 1⟩ "hello" =
      SendOutcome.droppedSilently := by
  decide

/-- C6 (amended): while the socket is open the payload is sent on the
channel; in every non-open state (connecting, closing, closed, or no socket)
the call silently does nothing — it neither fails with an error nor queues
the payload. -/
theorem sendMessage_open_sends_else_drops :
    (∀ (rs a rc cr : Nat) (tp : Bool) (d : String),
       sendMessage ⟨some ⟨wsOPEN⟩, rs, a, tp, rc, cr⟩ d = .sentData d) ∧
    (∀ (rs a rc cr : Nat) (tp : Bool) (d : String),
       sendMessage ⟨some ⟨wsCONNECTING⟩, rs, a, tp, rc, cr⟩ d = .droppedSilently) ∧
    (∀ (rs a rc cr : Nat) (tp : Bool) (d : String),
       sendMessage ⟨some ⟨wsCLOSING⟩, rs, a, tp, rc, cr⟩ d = .droppedSilently) ∧
    (∀ (rs a rc cr : Nat) (tp : Bool) (d : String),
       sendMessage ⟨some ⟨wsCLOSED⟩, rs, a, tp, rc, cr⟩ d = .droppedSilently) ∧
    (∀ (rs a rc cr : Nat) (tp : Bool) (d : String),
       sendMessage ⟨none, rs, a, tp, rc, cr⟩ d = .droppedSilently) := by
  refine ⟨?_, ?_, ?_, ?_, ?_⟩ <;> intro rs a rc cr tp d <;> rfl

/-- C9: calling connect while the current WebSocket's readyState is OPEN
returns the state unchanged — no new WebSocket is constructed (the created
counter is part of the state equality) and nothing else is modified. -/
theorem connect_noop_when_open (rs a rc cr : Nat) (tp : Bool) :
    connect ⟨some ⟨wsOPEN⟩, rs, a, tp, rc, cr⟩ = ⟨some ⟨wsOPEN⟩, rs, a, tp, rc, cr⟩ := by
  rfl

/-- C10: a progress update whose status is the string error still overwrites
the numeric progress value, but appends no stream message whatever its
message text is. -/
theorem error_status_updates_progress_but_logs_nothing
    (st : UIState) (prog : Option Nat) (msg : String) :
    (applyProgressUpdate st ⟨prog, msg, "error"⟩).progressValue = prog.getD 0 ∧
    (applyProgressUpdate st ⟨prog, msg, "error"⟩).streamMessages = st.streamMessages := by
  constructor
  · unfold applyProgressUpdate
    dsimp only
    split
    · split <;> rfl
    · rfl
  · simp [applyProgressUpdate]

end BrowseEase

namespace BrowseEase

/-- C2 (counterexample): a batch that carries the same message text twice
(with no earlier entry of that text) produces two stream entries for that
text, not exactly one — dedup does not apply within a single delivered
batch. -/
theorem duplicate_in_one_batch_kept_twice :
    ((applyLogs (⟨[], 0⟩ : UIState) ["dup", "dup"]).streamMessages.countP
      (fun m => m.message == "dup")) = 2 := by
  decide

/-- C2 (amended): dedup applies only against entries recorded before the
batch — the number of entries carrying a text that is already recorded never
grows, a not-yet-recorded text gains one entry per occurrence in the batch,
and new entries are only ever appended after the existing ones (arrival
order is preserved). -/
theorem dedup_against_recorded_only (st : UIState) (logs : List String) (t : String) :
    (applyLogs st logs).streamMessages.countP (fun m => m.message == t) =
      st.streamMessages.countP (fun m => m.message == t) +
        (if (st.streamMessages.map (·.message)).contains t then 0
         else logs.countP (fun l => l == t)) ∧
    ∃ tail, (applyLogs st logs).streamMessages = st.streamMessages ++ tail := by
  unfold applyLogs
  by_cases h0 : logs.length = 0
  · have hl : logs = [] := List.length_eq_zero.mp h0
    subst hl
    refine ⟨by simp, ⟨[], by simp⟩⟩
  · simp only [if_neg h0]
    refine ⟨?_, ⟨_, rfl⟩⟩
    simp only [List.countP_append, List.countP_filter, List.countP_map, Function.comp_def]
    by_cases hc : (st.streamMessages.map (·.message)).contains t
    · rw [if_pos hc]
      have hz : (logs.countP fun log =>
          (log == t) && !((st.streamMessages.map (·.message)).contains log)) = 0 := by
        rw [List.countP_eq_zero]
        intro a _
        intro hcontra
        have hbeq : (a == t) = true := by
          cases h : (a == t)
          · simp only [h] at hcontra
            simp at hcontra
          · rfl
        have hat : a = t := eq_of_beq hbeq
        subst hat
        rw [hc] at hcontra
        simp at hcontra
      rw [hz]
    · rw [if_neg hc]
      congr 1
      apply List.countP_congr
      intro x _
      constructor
      · intro h
        have : (x == t) = true := by
          cases h' : (x == t)
          · simp only [h'] at h
            simp at h
          · rfl
        exact this
      · intro h
        have hxt : x = t := eq_of_beq h
        subst hxt
        have hcf : ((st.streamMessages.map (·.message)).contains x) = false :=
          Bool.not_eq_true _ |>.mp hc
        simp only [h, hcf, Bool.not_false, Bool.true_and]

/-- Helper: the reconnect-timer callback increments the attempt counter,
consumes the timer and performs one reconnect, whatever connect then does. -/
theorem timerFire_fields (st : HookState) :
    (timerFire st).attempts = st.attempts + 1 ∧ (timerFire st).timerPending = false ∧
    (timerFire st).reconnects = st.reconnects + 1 := by
  unfold timerFire connect
  split <;> exact ⟨rfl, rfl, rfl⟩

/-- Helper: under autoReconnect, starting with no pending timer and at most
maxAttempts consumed, the immediate-close loop executes exactly the
remaining number of reconnect attempts, ends with no timer pending, the
attempt counter at the maximum, and the socket closed. -/
theorem immediateCloseRun_exhausts (interval maxA : Nat) :
    ∀ (fuel : Nat) (st : HookState), st.timerPending = false → st.attempts ≤ maxA →
      maxA - st.attempts < fuel →
      (immediateCloseRun ⟨true, interval, maxA⟩ fuel st).reconnects
          = st.reconnects + (maxA - st.attempts) ∧
      (immediateCloseRun ⟨true, interval, maxA⟩ fuel st).timerPending = false ∧
      (immediateCloseRun ⟨true, interval, maxA⟩ fuel st).attempts = maxA ∧
      (immediateCloseRun ⟨true, interval, maxA⟩ fuel st).readyState = wsCLOSED := by
  intro fuel
  induction fuel with
  | zero =>
    intro st _ _ hlt
    omega
  | succ fuel ih =>
    intro st htp hle hlt
    by_cases hA : st.attempts < maxA
    · have hcl : oncloseHandler ⟨true, interval, maxA⟩ st =
        { st with readyState := wsCLOSED,
                  ws := st.ws.map (fun w => { w with readyState := wsCLOSED }),
                  timerPending := true } := by
        unfold oncloseHandler
        rw [if_pos ⟨rfl, hA⟩]
      simp only [immediateCloseRun, hcl]
      rw [if_pos trivial]
      have hstep := timerFire_fields
        { st with readyState := wsCLOSED,
                  ws := st.ws.map (fun w => { w with readyState := wsCLOSED }),
                  timerPending := true }
      obtain ⟨ha, htf, hr⟩ := hstep
      obtain ⟨ih1, ih2, ih3, ih4⟩ := ih (timerFire
        { st with readyState := wsCLOSED,
                  ws := st.ws.map (fun w => { w with readyState := wsCLOSED }),
                  timerPending := true })
        htf (by simp only [ha]; omega) (by simp only [ha]; omega)
      refine ⟨?_, ih2, ih3, ih4⟩
      rw [ih1, hr, ha]
      dsimp only
      omega
    · have hAe : st.attempts = maxA := by omega
      have hcl : oncloseHandler ⟨true, interval, maxA⟩ st =
        { st with readyState := wsCLOSED,
                  ws := st.ws.map (fun w => { w with readyState := wsCLOSED }) } := by
        unfold oncloseHandler
        rw [if_neg]
        intro hcontra
        exact absurd hcontra.2 hA
      simp only [immediateCloseRun, hcl, htp]
      rw [if_neg Bool.false_ne_true]
      dsimp only
      refine ⟨by omega, rfl, hAe, rfl⟩

/-- C3 (counterexample): with maxAttempts 3 and every connection closing
immediately, once reconnection is exhausted the consumer-visible connection
status is the ordinary "closed" — the same value as after any normal close —
and no exhausted or failed signal is surfaced. -/
theorem exhaustion_surfaces_plain_closed :
    getConnectionStatus (immediateCloseRun ⟨true, 5000, 3⟩ 10 (connect initialHookState))
      = "closed" ∧
    (immediateCloseRun ⟨true, 5000, 3⟩ 10 (connect initialHookState)).reconnects = 3 ∧
    (immediateCloseRun ⟨true, 5000, 3⟩ 10 (connect initialHookState)).timerPending = false := by
  decide

/-- C3 (amended): with autoReconnect and maxAttempts configured and every
connection closing immediately, exactly maxAttempts reconnect attempts are
executed — not one fewer or one more — after which no further reconnect is
scheduled; but the hook surfaces only connectionStatus "closed" to the
consumer, whose codomain is limited to connecting, open, closing and closed,
so no distinct exhausted or failed terminal signal exists. -/
theorem reconnects_stop_after_max (interval maxA k : Nat) :
    (immediateCloseRun ⟨true, interval, maxA⟩ (maxA + 1 + k)
        (connect initialHookState)).reconnects = maxA ∧
    (immediateCloseRun ⟨true, interval, maxA⟩ (maxA + 1 + k)
        (connect initialHookState)).timerPending = false ∧
    getConnectionStatus (immediateCloseRun ⟨true, interval, maxA⟩ (maxA + 1 + k)
        (connect initialHookState)) = "closed" ∧
    ∀ st : HookState, getConnectionStatus st = "connecting" ∨ getConnectionStatus st = "open" ∨
      getConnectionStatus st = "closing" ∨ getConnectionStatus st = "closed" := by
  obtain ⟨h1, h2, h3, h4⟩ := immediateCloseRun_exhausts interval maxA (maxA + 1 + k)
    (connect initialHookState) rfl (Nat.zero_le maxA)
    (by rw [show (connect initialHookState).attempts = 0 from rfl]; omega)
  have e1 : (connect initialHookState).reconnects = 0 := rfl
  have e2 : (connect initialHookState).attempts = 0 := rfl
  rw [e1, e2, Nat.zero_add, Nat.sub_zero] at h1
  refine ⟨h1, h2, ?_, ?_⟩
  · unfold getConnectionStatus
    rw [h4]
    simp [wsCLOSED, wsCONNECTING, wsOPEN, wsCLOSING]
  · intro st
    unfold getConnectionStatus
    split_ifs <;> simp

/-- C7: the severity assigned to a log-like message text follows the exact
precedence: error when the text carries the failure marker; otherwise
success when it carries the completion marker; otherwise progress when it
carries the progress marker; otherwise info. -/
theorem logType_precedence (log : String) :
    (logType log = .error ↔ containsSubstr log "Error" = true) ∧
    (logType log = .success ↔
      (containsSubstr log "Error" = false ∧ containsSubstr log "completed" = true)) ∧
    (logType log = .progress ↔
      (containsSubstr log "Error" = false ∧ containsSubstr log "completed" = false ∧
        containsSubstr log "Progress" = true)) ∧
    (logType log = .info ↔
      (containsSubstr log "Error" = false ∧ containsSubstr log "completed" = false ∧
        containsSubstr log "Progress" = false)) := by
  cases h1 : containsSubstr log "Error" <;> cases h2 : containsSubstr log "completed" <;>
    cases h3 : containsSubstr log "Progress" <;> simp [logType, h1, h2, h3]

/-- C8: the generic request helper is a total function into the
data/error/loading record — it resolves on every fetch outcome: a network
failure or a non-ok response yields a null data and a non-null error, and a
successful response yields the parsed (or raw text) body with a null error;
in every outcome exactly one of data and error is set and loading is
false. -/
theorem request_always_resolves :
    (∀ o : FetchOutcome,
       (request o).loading = false ∧ ((request o).data = none ↔ (request o).error.isSome = true)) ∧
    (∀ m, (request (.networkFailure m)).data = none ∧
       (request (.networkFailure m)).error.isSome = true) ∧
    (∀ status stx isJ jb tb, (request (.response false status stx isJ jb tb)).data = none ∧
       (request (.response false status stx isJ jb tb)).error.isSome = true) ∧
    (∀ status stx j tb, request (.response true status stx true (some j) tb) =
       { data := some j, error := none, loading := false }) ∧
    (∀ status stx jb tb, request (.response true status stx false jb tb) =
       { data := some tb, error := none, loading := false }) := by
  refine ⟨?_, ?_, ?_, ?_, ?_⟩
  · intro o
    rcases o with m | ⟨ok, s, stx, isJ, jb, tb⟩
    · simp [request]
    · rcases ok <;> rcases isJ <;> rcases jb <;> simp [request]
  · intro m
    simp [request]
  · intro status stx isJ jb tb
    simp [request]
  · intro status stx j tb
    rfl
  · intro status stx jb tb
    rfl

end BrowseEase
